import Mathlib

/-!
Verification of the WhatsApp AI funnel repository: a shallow embedding of the
admission/throttling queue (`queueService`), the per-message pipeline
(`processMessageDirectly`), the Supabase-backed database service
(`databaseService`) and the relevant configuration constants, together with
theorems settling the specified properties.
-/

namespace WhatsAppFunnel

/-! ## Configuration constants (src/config/botConfig.js) -/

/-- Embeds `botConfig.subscription.limits.freeMessages` (value 10).  Note that
`processMessageDirectly` in the controller hard-codes the literal `10` instead
of reading this field; the two values coincide. -/
def freeMessages : Nat := 10

/-- Embeds `botConfig.ai.contextMessageLimit` (value 10). -/
def contextMessageLimit : Nat := 10

/-- Embeds `botConfig.whatsapp.rateLimit.threshold` (value 50). -/
def RATE_LIMIT_THRESHOLD : Nat := 50

/-- Embeds `botConfig.subscription.messages.expired`, the upsell text sent on
the `subscription_required` branch of `processMessageDirectly`. -/
def subscriptionExpiredMessage : String :=
  "You\x27re out of plant scans. Upgrade for unlimited daily analysis!🌱 https://plantvisionai.com/subscribe"

/-- Embeds `botConfig.errors.general`, the generic apology text the controller
catch block tries to send. -/
def generalErrorMessage : String :=
  "I apologize, but I\x27m having trouble processing your message right now. Please try again in a moment. 🙏"

/-! ## Database model (src/services/databaseService.js over the Supabase schema)

The `users` table is a list of rows `(user_id, message_count, is_subscribed)`
and the `messages` table a list of rows `(user_id, role, content)` kept in
insertion (chronological) order; `created_at DESC` ordering is therefore list
reversal. -/

/-- A row of the `users` table (the columns `findOrCreateUser` selects). -/
structure UserRecord where
  user_id : String
  message_count : Nat
  is_subscribed : Bool
deriving Repr, DecidableEq

/-- A row of the `messages` table (the columns the service reads/writes). -/
structure MessageRow where
  user_id : String
  role : String
  content : String
deriving Repr, DecidableEq

/-- The database state: both tables, rows in insertion order. -/
structure DBState where
  users : List UserRecord
  messages : List MessageRow
deriving Repr, DecidableEq

/-- Row lookup by `user_id` (Supabase `.eq(user_id, userId).maybeSingle()`;
`user_id` is UNIQUE so the first match is the row). -/
def findUser (db : DBState) (userId : String) : Option UserRecord :=
  db.users.find? (fun u => u.user_id == userId)

/-- Embeds `databaseService.findOrCreateUser`: return the existing row, or
insert `{ user_id, message_count: 0, is_subscribed: false }` and return it. -/
def findOrCreateUser (db : DBState) (userId : String) : DBState × UserRecord :=
  match findUser db userId with
  | some userData => (db, userData)
  | none =>
    let newUser : UserRecord := ⟨userId, 0, false⟩
    ({ db with users := db.users ++ [newUser] }, newUser)

/-- The `UPDATE users SET message_count = n WHERE user_id = userId` issued by
`incrementMessageCount`. -/
def setUserCount (db : DBState) (userId : String) (n : Nat) : DBState :=
  { db with
    users := db.users.map (fun u =>
      if u.user_id == userId then { u with message_count := n } else u) }

/-- Embeds `databaseService.incrementMessageCount`: re-read (or create) the
user, write back `message_count + 1`, and return the new count. -/
def incrementMessageCount (db : DBState) (userId : String) : DBState × Nat :=
  let user := (findOrCreateUser db userId).2
  let newCount := user.message_count + 1
  (setUserCount (findOrCreateUser db userId).1 userId newCount, newCount)

/-- Embeds `databaseService.updateSubscription`: `UPDATE users SET
is_subscribed = isSubscribed WHERE user_id = userId`. -/
def updateSubscription (db : DBState) (userId : String) (isSubscribed : Bool) : DBState :=
  { db with
    users := db.users.map (fun u =>
      if u.user_id == userId then { u with is_subscribed := isSubscribed } else u) }

/-- Embeds `databaseService.getConversationContext`: select `(role, content)`
of the sender's rows ordered `created_at DESC`, limited to
`contextMessageLimit`, then `.reverse()` the returned page. -/
def getConversationContext (db : DBState) (userId : String) : List (String × String) :=
  let data :=
    (((db.messages.filter (fun m => m.user_id == userId)).reverse).take
      contextMessageLimit).map (fun m => (m.role, m.content))
  data.reverse

/-- Embeds `databaseService.saveMessage`: insert the user turn and the
assistant turn as two new `messages` rows. -/
def saveMessage (db : DBState) (userId userMessage aiResponse : String) : DBState :=
  { db with
    messages := db.messages ++
      [⟨userId, "user", userMessage⟩, ⟨userId, "assistant", aiResponse⟩] }

/-! ## Per-message pipeline (queueService.processMessageDirectly)

External effects are resolved by explicit oracles: `isSubscribed` is the value
returned by `paymentService.checkStripeSubscription` (which catches every error
and returns a boolean, never throwing), `aiReply` the text
`generateAIResponse` would return, and a `Faults` record says which fallible
collaborator calls throw.  A thrown error is the outcome `none` (the function
rethrows after logging); database writes performed before the throw persist. -/

/-- Which collaborator calls fail (throw) during one pipeline run. -/
structure Faults where
  findUserFault : Bool
  updateSubFault : Bool
  incrementFault : Bool
  contextFault : Bool
  aiFault : Bool
  sendFault : Bool
  saveFault : Bool
deriving Repr, DecidableEq

/-- The run with no collaborator failures. -/
def noFaults : Faults := ⟨false, false, false, false, false, false, false⟩

/-- The nested `message` object of the data handed to the queue service. -/
structure MessageBody where
  messageContent : String
  messageForAI : String
deriving Repr, DecidableEq

/-- The event object the controller passes to `queueService.handleMessage`
(the `handlers` map is resolved by the oracles instead). -/
structure MessageData where
  message : MessageBody
  from_ : String
  messageType : String
deriving Repr, DecidableEq

/-- The `{ status: ... }` values `processMessageDirectly` can return. -/
inductive Outcome where
  | subscription_required (message : String)
  | success (message : String)
deriving Repr, DecidableEq

/-- Observable result of one pipeline run: the database afterwards, the texts
delivered via `sendWhatsAppMessage` (as `(to, text)` pairs), the prompts passed
to `generateAIResponse`, and the returned status (`none` when the run threw). -/
structure PipeResult where
  db : DBState
  sent : List (String × String)
  aiCalls : List String
  outcome : Option Outcome
deriving Repr, DecidableEq

/-- Separator used when rendering the conversation context. -/
def newlineSep : String := "\n"

/-- The database after the conditional entitlement reconciliation
(messageController.js lines 149-157): fetch-or-create the user, then, when the
oracle's answer differs from the stored flag, persist the oracle's answer. -/
def dbAfterReconcile (isSubscribed : Bool) (db : DBState) (uid : String) : DBState :=
  if isSubscribed != (findOrCreateUser db uid).2.is_subscribed then
    updateSubscription (findOrCreateUser db uid).1 uid isSubscribed
  else (findOrCreateUser db uid).1

/-- The completion prompt built at lines 172-175: image events reuse the
prompt parts prepared at ingestion; text events render the fetched context as
a transcript followed by the new utterance. -/
def buildPrompt (db : DBState) (messageData : MessageData) : String :=
  let contextMessages := getConversationContext db messageData.from_
  let context :=
    String.intercalate newlineSep (contextMessages.map (fun msg => msg.1 ++ ": " ++ msg.2))
  if messageData.messageType == "image" then messageData.message.messageForAI
  else
    "Previous conversation:" ++ newlineSep ++ context ++ newlineSep ++ newlineSep ++
      "User: " ++ messageData.message.messageContent ++ newlineSep ++ "Assistant:"

/-- Embeds `queueService.processMessageDirectly` (messageController.js lines
134-188).  Steps: `checkSubscription ∥ findOrCreateUser`; reconcile the stored
`is_subscribed` flag when it differs from the oracle answer (`updateSubscription`
rethrows on failure, aborting the run); `incrementMessageCount`; then the
admission check exactly as written in the source,
`if (messageCount <= 10 || isSubscribed)`, which sends the upsell text and
returns `subscription_required`; otherwise fetch context, build the prompt,
call the AI, and deliver + save concurrently (both attempted even if one
fails, as `Promise.all` starts both). -/
def processMessageDirectly (f : Faults) (isSubscribed : Bool) (aiReply : String)
    (db : DBState) (messageData : MessageData) : PipeResult :=
  if f.findUserFault then
    { db := db, sent := [], aiCalls := [], outcome := none }
  else if isSubscribed != (findOrCreateUser db messageData.from_).2.is_subscribed
      ∧ f.updateSubFault then
    { db := (findOrCreateUser db messageData.from_).1, sent := [], aiCalls := [],
      outcome := none }
  else
    let db2 := dbAfterReconcile isSubscribed db messageData.from_
    if f.incrementFault then
      { db := db2, sent := [], aiCalls := [], outcome := none }
    else
      let messageCount := (incrementMessageCount db2 messageData.from_).2
      let db3 := (incrementMessageCount db2 messageData.from_).1
      let _isTester := ["31612345678", "31636505705", "31681883910"].contains messageData.from_
      if messageCount ≤ 10 ∨ isSubscribed then
        if f.sendFault then
          { db := db3, sent := [], aiCalls := [], outcome := none }
        else
          { db := db3, sent := [(messageData.from_, subscriptionExpiredMessage)],
            aiCalls := [],
            outcome := some (Outcome.subscription_required subscriptionExpiredMessage) }
      else
        if f.contextFault then
          { db := db3, sent := [], aiCalls := [], outcome := none }
        else
          let prompt := buildPrompt db3 messageData
          if f.aiFault then
            { db := db3, sent := [], aiCalls := [prompt], outcome := none }
          else
            let db4 :=
              if f.saveFault then db3
              else saveMessage db3 messageData.from_ messageData.message.messageContent aiReply
            let sentNow := if f.sendFault then [] else [(messageData.from_, aiReply)]
            if f.sendFault ∨ f.saveFault then
              { db := db4, sent := sentNow, aiCalls := [prompt], outcome := none }
            else
              { db := db4, sent := sentNow, aiCalls := [prompt],
                outcome := some (Outcome.success aiReply) }

/-! ## Admission queue (queueService, messageController.js lines 117-228)

Module state: `requestCount`, the FIFO `delayedMessages` buffer, and the
`processingDelayed` flag.  The two `drains*` fields are ghost counters that
only record events (how many drains have begun and how many have completed);
no transition reads them, so they do not alter behaviour — they let
"at most one drain is active" be stated as a reachability invariant.

Node's event loop makes every synchronous prefix atomic: the interval callback
resets the counter, checks the guard and — via the synchronous prefix of
`processDelayedMessages` — sets `processingDelayed = true` before any `await`,
all in one step.  Each iteration of the drain loop (`shift` + awaited pipeline
call) is a separate step, between which submits and ticks may interleave. -/

/-- Queue-service module state plus the two ghost drain counters. -/
structure QueueState where
  requestCount : Nat
  delayedMessages : List MessageData
  processingDelayed : Bool
  drainsStarted : Nat
  drainsFinished : Nat
deriving Repr, DecidableEq

/-- The queue state at module load. -/
def initialQueueState : QueueState :=
  { requestCount := 0, delayedMessages := [], processingDelayed := false,
    drainsStarted := 0, drainsFinished := 0 }

/-- What `queueService.handleMessage` returns: `{ delayed: true }` or the
inline pipeline result. -/
inductive QueueOutcome (α : Type) where
  | delayed
  | inline (r : α)
deriving Repr, DecidableEq

/-- Embeds `queueService.handleMessage` (lines 210-226): increment
`requestCount`; if it now exceeds `RATE_LIMIT_THRESHOLD`, push the event onto
the FIFO buffer and return `{ delayed: true }`; otherwise run the pipeline
inline (abstracted as `pipe`) and return its result. -/
def handleMessage {α : Type} (pipe : MessageData → α) (st : QueueState)
    (md : MessageData) : QueueState × QueueOutcome α :=
  let st1 := { st with requestCount := st.requestCount + 1 }
  if st1.requestCount > RATE_LIMIT_THRESHOLD then
    ({ st1 with delayedMessages := st1.delayedMessages ++ [md] }, QueueOutcome.delayed)
  else
    (st1, QueueOutcome.inline (pipe md))

/-- Embeds the `setInterval` callback (lines 127-132) together with the
synchronous prefix of `processDelayedMessages`: reset `requestCount`; if the
buffer is non-empty and no drain is active, invoke `processDelayedMessages`,
whose first synchronous statements set `processingDelayed = true`.  The
returned boolean records whether a drain was started. -/
def intervalTick (st : QueueState) : QueueState × Bool :=
  let st1 := { st with requestCount := 0 }
  if 0 < st1.delayedMessages.length ∧ st1.processingDelayed = false then
    ({ st1 with processingDelayed := true, drainsStarted := st1.drainsStarted + 1 }, true)
  else
    (st1, false)

/-- Whether the awaited pipeline call inside the drain loop succeeds or
throws for the entry being processed. -/
inductive DrainEvent where
  | ok
  | fail
deriving Repr, DecidableEq

/-- Embeds one resumption of `processDelayedMessages` (lines 190-208) at its
loop head: with an empty buffer the `while` exits and the `finally` clears
`processingDelayed`; otherwise the head entry is `shift`ed and processed —
on success the loop continues, on a throw the `catch` logs and the `finally`
clears `processingDelayed`, ending the drain with the remaining entries still
buffered. -/
def drainStep (st : QueueState) (ev : DrainEvent) : QueueState :=
  match st.delayedMessages with
  | [] =>
    { st with processingDelayed := false, drainsFinished := st.drainsFinished + 1 }
  | _ :: rest =>
    match ev with
    | DrainEvent.ok => { st with delayedMessages := rest }
    | DrainEvent.fail =>
      { st with
        delayedMessages := rest
        processingDelayed := false
        drainsFinished := st.drainsFinished + 1 }

/-- Small-step relation of the queue: a submit, an interval tick, or one drain
resumption (drain resumptions only exist while a drain is active). -/
inductive QStep : QueueState → QueueState → Prop where
  | submit (st : QueueState) (md : MessageData) :
      QStep st (handleMessage (fun _ => PUnit.unit) st md).1
  | tick (st : QueueState) : QStep st (intervalTick st).1
  | drain (st : QueueState) (ev : DrainEvent) (h : st.processingDelayed = true) :
      QStep st (drainStep st ev)

/-- States reachable from module load. -/
def QReachable (st : QueueState) : Prop :=
  Relation.ReflTransGen QStep initialQueueState st

/-- Iterated submits (used to state the burst scenario): process the events in
order, collecting the per-event results. -/
def submitAll {α : Type} (pipe : MessageData → α) (st : QueueState) :
    List MessageData → QueueState × List (QueueOutcome α)
  | [] => (st, [])
  | md :: mds =>
    let (st1, r) := handleMessage pipe st md
    let (st2, rs) := submitAll pipe st1 mds
    (st2, r :: rs)

/-- One attempt at the next buffered entry under a running scheduler: if no
drain is active, the next interval tick starts one (the `setInterval` keeps
firing forever); then one drain-loop resumption processes the head entry with
outcome `ev`. -/
def attemptNext (st : QueueState) (ev : DrainEvent) : QueueState :=
  let st1 := if st.processingDelayed then st else (intervalTick st).1
  drainStep st1 ev

/-- Iterated `attemptNext`. -/
def attemptAll (st : QueueState) : List DrainEvent → QueueState
  | [] => st
  | ev :: evs => attemptAll (attemptNext st ev) evs

/-! ## The controller catch block (messageController.js lines 103-113)

`handleMessage` in the controller declares `const from = message.from` inside
its `try` block; `const` bindings are block-scoped, so the identifier `from`
is not visible in the sibling `catch` block.  The catch block is embedded at
the level of identifier resolution: the set of names lexically in scope there
is transcribed from the source, and evaluating an identifier outside that set
raises a ReferenceError, which propagates out of the catch. -/

/-- Identifiers lexically in scope at the catch block of the controller's
`handleMessage`: the module-level `require` bindings and constants, the
function itself, its parameter `req`, and the catch parameter `error`.  The
`const` bindings of the `try` block (`data`, `message`, `from`,
`messageContent`, `messageType`, `messageForAI`, `handlers`, `result`) are
block-scoped to the `try` block and absent. -/
def handleMessageCatchScope : List String :=
  ["whatsapp", "generateResponse", "databaseService", "paymentService", "logger",
   "isBlockedCountry", "transcribeAudio", "downloadImageFromWhatsApp",
   "queueHandler", "botConfig", "SUBSCRTIPTION_MESSAGE", "ERROR_MESSAGE",
   "handleMessage", "req", "error"]

/-- Embeds the catch block of the controller's `handleMessage`: it evaluates
the identifier `from`; if that name is not in scope the evaluation raises a
ReferenceError and the block aborts (result `none`, nothing sent); otherwise
(`some`) it sends `botConfig.errors.general` when the sender value is truthy.
`senderTruthy` is the truthiness the binding would have had. -/
def handleMessageCatch (senderTruthy : Bool) : Option (List String) :=
  if "from" ∈ handleMessageCatchScope then
    some (if senderTruthy then [generalErrorMessage] else [])
  else none

/-! ## Observers and concrete demonstration inputs -/

/-- Observer: the stored `message_count` of a user (0 when the row is absent,
matching the freshly-created row's count). -/
def userCount (db : DBState) (userId : String) : Nat :=
  ((findUser db userId).map (fun u => u.message_count)).getD 0

/-- Observer: the stored `is_subscribed` flag of a user, when present. -/
def userSubscribedFlag (db : DBState) (userId : String) : Option Bool :=
  (findUser db userId).map (fun u => u.is_subscribed)

/-- The sender's full conversation in chronological (oldest-first) order as
`(role, content)` pairs — the reference against which the context read is
compared. -/
def userTurns (db : DBState) (userId : String) : List (String × String) :=
  (db.messages.filter (fun m => m.user_id == userId)).map (fun m => (m.role, m.content))

/-- Concrete sender id used in the evaluation theorems. -/
def demoSender : String := "31600000001"

/-- Concrete AI reply used in the evaluation theorems. -/
def demoReply : String := "Your plant looks healthy."

/-- Concrete inbound text event used in the evaluation theorems. -/
def demoMsg : MessageData :=
  { message := { messageContent := "hello", messageForAI := "hello" },
    from_ := demoSender, messageType := "text" }

/-- Database holding exactly the demo sender with the given stored count and
subscription flag. -/
def dbWith (n : Nat) (subscribed : Bool) : DBState :=
  { users := [⟨demoSender, n, subscribed⟩], messages := [] }

/-- The run aborts neither on the user fetch, nor on the (conditional)
subscription reconciliation, nor on the count update — i.e. control reaches
the increment and the admission check. -/
def reachesIncrement (f : Faults) (isSubscribed : Bool) (db : DBState)
    (md : MessageData) : Prop :=
  f.findUserFault = false ∧ f.incrementFault = false ∧
    ¬((isSubscribed != (findOrCreateUser db md.from_).2.is_subscribed) = true ∧
      f.updateSubFault = true)

instance (f : Faults) (isSubscribed : Bool) (db : DBState) (md : MessageData) :
    Decidable (reachesIncrement f isSubscribed db md) := by
  unfold reachesIncrement; infer_instance

/-- One pipeline run followed by the rest of a batch: the database threading
used to state cross-run invariants. -/
def runAll (isSubscribed : Bool) (aiReply : String) :
    DBState → List (Faults × MessageData) → DBState
  | db, [] => db
  | db, (f, md) :: rest =>
    runAll isSubscribed aiReply (processMessageDirectly f isSubscribed aiReply db md).db rest

/-! ## Helper lemmas about the database service -/

theorem find_map_keyFixed (users : List UserRecord) (f : UserRecord → UserRecord)
    (hf : ∀ u, (f u).user_id = u.user_id) (v : String) :
    (users.map f).find? (fun u => u.user_id == v) =
      (users.find? (fun u => u.user_id == v)).map f := by
  induction users with
  | nil => rfl
  | cons u rest ih =>
    simp only [List.map_cons, List.find?_cons, hf u]
    cases h : (u.user_id == v) <;> simp [ih]

theorem findUser_setUserCount (db : DBState) (uid : String) (n : Nat) (v : String) :
    findUser (setUserCount db uid n) v =
      (findUser db v).map
        (fun u => if u.user_id == uid then { u with message_count := n } else u) := by
  unfold findUser setUserCount
  exact find_map_keyFixed db.users _ (fun u => by split <;> rfl) v

theorem findUser_updateSubscription (db : DBState) (uid : String) (b : Bool) (v : String) :
    findUser (updateSubscription db uid b) v =
      (findUser db v).map
        (fun u => if u.user_id == uid then { u with is_subscribed := b } else u) := by
  unfold findUser updateSubscription
  exact find_map_keyFixed db.users _ (fun u => by split <;> rfl) v

theorem findUser_saveMessage (db : DBState) (uid m r v : String) :
    findUser (saveMessage db uid m r) v = findUser db v := rfl

theorem userCount_updateSubscription (db : DBState) (uid : String) (b : Bool) (v : String) :
    userCount (updateSubscription db uid b) v = userCount db v := by
  unfold userCount
  rw [findUser_updateSubscription]
  cases findUser db v with
  | none => rfl
  | some u =>
    simp only [Option.map_map, Option.map, Option.getD]
    split <;> rfl

theorem userCount_saveMessage (db : DBState) (uid m r v : String) :
    userCount (saveMessage db uid m r) v = userCount db v := rfl

theorem userSubscribedFlag_setUserCount (db : DBState) (uid : String) (n : Nat) (v : String) :
    userSubscribedFlag (setUserCount db uid n) v = userSubscribedFlag db v := by
  unfold userSubscribedFlag
  rw [findUser_setUserCount]
  cases findUser db v with
  | none => rfl
  | some u =>
    simp only [Option.map_map, Option.map]
    congr 1
    split <;> rfl

theorem userSubscribedFlag_saveMessage (db : DBState) (uid m r v : String) :
    userSubscribedFlag (saveMessage db uid m r) v = userSubscribedFlag db v := rfl

theorem findUser_of_existing (db : DBState) (uid : String) (u : UserRecord)
    (h : findUser db uid = some u) : findOrCreateUser db uid = (db, u) := by
  unfold findOrCreateUser
  rw [h]

theorem findOrCreateUser_user_id (db : DBState) (uid : String) :
    (findOrCreateUser db uid).2.user_id = uid := by
  unfold findOrCreateUser
  cases h : findUser db uid with
  | none => rfl
  | some u =>
    have := List.find?_some h
    simpa using this

theorem findOrCreateUser_snd_count (db : DBState) (uid : String) :
    (findOrCreateUser db uid).2.message_count = userCount db uid := by
  unfold findOrCreateUser userCount
  cases h : findUser db uid <;> simp [h]

theorem findUser_findOrCreateUser_self (db : DBState) (uid : String) :
    findUser (findOrCreateUser db uid).1 uid = some (findOrCreateUser db uid).2 := by
  unfold findOrCreateUser
  cases h : findUser db uid with
  | some u => exact h
  | none =>
    unfold findUser at h ⊢
    simp [List.find?_append, h, List.find?_cons]

theorem userCount_findOrCreateUser (db : DBState) (uid v : String) :
    userCount (findOrCreateUser db uid).1 v = userCount db v := by
  unfold findOrCreateUser
  cases h : findUser db uid with
  | some u => rfl
  | none =>
    unfold findUser at h
    unfold userCount findUser
    simp only [List.find?_append, h]
    cases h2 : db.users.find? (fun u => u.user_id == v) with
    | some u => simp [h2]
    | none =>
      simp only [h2, Option.none_or]
      cases h3 : List.find? (fun u => u.user_id == v) [(⟨uid, 0, false⟩ : UserRecord)] with
      | none => rfl
      | some u =>
        have hm := List.mem_of_find?_eq_some h3
        simp only [List.mem_singleton] at hm
        subst hm
        rfl

theorem userSubscribedFlag_findOrCreateUser_of_existing (db : DBState) (uid : String)
    (u : UserRecord) (h : findUser db uid = some u) :
    userSubscribedFlag (findOrCreateUser db uid).1 uid = some u.is_subscribed := by
  rw [findUser_of_existing db uid u h]
  unfold userSubscribedFlag
  rw [h]
  rfl

theorem userCount_setUserCount_self (db : DBState) (uid : String) (n : Nat)
    (u : UserRecord) (h : findUser db uid = some u) :
    userCount (setUserCount db uid n) uid = n := by
  unfold userCount
  rw [findUser_setUserCount, h]
  have hb0 := List.find?_some (show db.users.find? (fun x => x.user_id == uid) = some u from h)
  have heq : u.user_id = uid := by simpa using hb0
  simp [heq]

theorem userCount_setUserCount_other (db : DBState) (uid : String) (n : Nat)
    (v : String) (hv : v ≠ uid) :
    userCount (setUserCount db uid n) v = userCount db v := by
  unfold userCount
  rw [findUser_setUserCount]
  cases h : findUser db v with
  | none => rfl
  | some u =>
    have hb0 := List.find?_some (show db.users.find? (fun x => x.user_id == v) = some u from h)
    have hid : u.user_id = v := by simpa using hb0
    simp only [Option.map_map, Option.map, Option.getD]
    rw [hid]
    simp [hv]

theorem incrementMessageCount_snd (db : DBState) (uid : String) :
    (incrementMessageCount db uid).2 = userCount db uid + 1 := by
  simp only [incrementMessageCount, findOrCreateUser_snd_count]

theorem userCount_incrementMessageCount_self (db : DBState) (uid : String) :
    userCount (incrementMessageCount db uid).1 uid = userCount db uid + 1 := by
  simp only [incrementMessageCount]
  rw [userCount_setUserCount_self _ _ _ _ (findUser_findOrCreateUser_self db uid),
    findOrCreateUser_snd_count]

theorem userCount_incrementMessageCount_other (db : DBState) (uid v : String)
    (hv : v ≠ uid) :
    userCount (incrementMessageCount db uid).1 v = userCount db v := by
  simp only [incrementMessageCount]
  rw [userCount_setUserCount_other _ _ _ _ hv, userCount_findOrCreateUser]

theorem userCount_incrementMessageCount_le (db : DBState) (uid v : String) :
    userCount db v ≤ userCount (incrementMessageCount db uid).1 v := by
  by_cases hv : v = uid
  · subst hv
    rw [userCount_incrementMessageCount_self]
    exact Nat.le_succ _
  · rw [userCount_incrementMessageCount_other db uid v hv]

theorem userSubscribedFlag_incrementMessageCount (db : DBState) (uid v : String) :
    userSubscribedFlag (incrementMessageCount db uid).1 v =
      userSubscribedFlag (findOrCreateUser db uid).1 v := by
  simp only [incrementMessageCount]
  rw [userSubscribedFlag_setUserCount]

/-! ## Helper lemmas about the per-message pipeline -/

theorem userCount_dbAfterReconcile (isS : Bool) (db : DBState) (uid v : String) :
    userCount (dbAfterReconcile isS db uid) v = userCount db v := by
  unfold dbAfterReconcile
  split <;> simp [userCount_updateSubscription, userCount_findOrCreateUser]

theorem pipeline_userCount_mono (f : Faults) (isS : Bool) (reply : String)
    (db : DBState) (md : MessageData) (v : String) :
    userCount db v ≤ userCount (processMessageDirectly f isS reply db md).db v := by
  simp only [processMessageDirectly]
  repeat' split
  all_goals try simp only [userCount_saveMessage]
  all_goals
    first
    | exact Nat.le_refl _
    | simp [userCount_findOrCreateUser]
    | simp [userCount_dbAfterReconcile]
    | (refine Nat.le_trans ?_ (userCount_incrementMessageCount_le _ _ _)
       simp [userCount_dbAfterReconcile])

theorem pipeline_count_incremented (f : Faults) (isS : Bool) (reply : String)
    (db : DBState) (md : MessageData) (h : reachesIncrement f isS db md) :
    userCount (processMessageDirectly f isS reply db md).db md.from_ =
      userCount db md.from_ + 1 := by
  obtain ⟨h1, h2, h3⟩ := h
  simp only [processMessageDirectly, h1, h2, Bool.false_eq_true, if_false, if_neg h3]
  repeat' split
  all_goals
    simp [userCount_saveMessage, userCount_incrementMessageCount_self,
      userCount_dbAfterReconcile]

theorem runAll_userCount_mono (isS : Bool) (reply : String)
    (rs : List (Faults × MessageData)) (db : DBState) (v : String) :
    userCount db v ≤ userCount (runAll isS reply db rs) v := by
  induction rs generalizing db with
  | nil => exact Nat.le_refl _
  | cons r rest ih =>
    obtain ⟨rf, rmd⟩ := r
    exact Nat.le_trans (pipeline_userCount_mono rf isS reply db rmd v) (ih _)

theorem userSubscribedFlag_updateSubscription_self (db : DBState) (uid : String)
    (b : Bool) (u : UserRecord) (h : findUser db uid = some u) :
    userSubscribedFlag (updateSubscription db uid b) uid = some b := by
  unfold userSubscribedFlag
  rw [findUser_updateSubscription, h]
  have hb0 := List.find?_some (show db.users.find? (fun x => x.user_id == uid) = some u from h)
  have heq : u.user_id = uid := by simpa using hb0
  simp [heq]

theorem userSubscribedFlag_dbAfterReconcile (isS : Bool) (db : DBState) (uid : String)
    (hdiff : (isS != (findOrCreateUser db uid).2.is_subscribed) = true) :
    userSubscribedFlag (dbAfterReconcile isS db uid) uid = some isS := by
  unfold dbAfterReconcile
  rw [if_pos hdiff]
  exact userSubscribedFlag_updateSubscription_self _ _ _ _ (findUser_findOrCreateUser_self db uid)

theorem pipeline_reconcile_fault_aborts (f : Faults) (isS : Bool) (reply : String)
    (db : DBState) (md : MessageData)
    (h1 : f.findUserFault = false)
    (hdiff : (isS != (findOrCreateUser db md.from_).2.is_subscribed) = true)
    (h2 : f.updateSubFault = true) :
    processMessageDirectly f isS reply db md =
      { db := (findOrCreateUser db md.from_).1, sent := [], aiCalls := [],
        outcome := none } := by
  simp [processMessageDirectly, h1, hdiff, h2]

theorem pipeline_reconcile_persists (f : Faults) (isS : Bool) (reply : String)
    (db : DBState) (md : MessageData)
    (h1 : f.findUserFault = false)
    (hdiff : (isS != (findOrCreateUser db md.from_).2.is_subscribed) = true)
    (h2 : f.updateSubFault = false) :
    userSubscribedFlag (processMessageDirectly f isS reply db md).db md.from_ =
      some isS := by
  have hflag : userSubscribedFlag (dbAfterReconcile isS db md.from_) md.from_ = some isS :=
    userSubscribedFlag_dbAfterReconcile isS db md.from_ hdiff
  obtain ⟨w, hw, hws⟩ : ∃ w, findUser (dbAfterReconcile isS db md.from_) md.from_ = some w
      ∧ w.is_subscribed = isS := by
    unfold userSubscribedFlag at hflag
    cases hfind : findUser (dbAfterReconcile isS db md.from_) md.from_ with
    | none => rw [hfind] at hflag; simp at hflag
    | some w =>
      rw [hfind] at hflag
      exact ⟨w, rfl, by simpa using hflag⟩
  have hinc : userSubscribedFlag
      (incrementMessageCount (dbAfterReconcile isS db md.from_) md.from_).1 md.from_ =
      some isS := by
    rw [userSubscribedFlag_incrementMessageCount, findUser_of_existing _ _ _ hw]
    unfold userSubscribedFlag
    rw [hw]
    simp [hws]
  simp only [processMessageDirectly, h1, h2, Bool.false_eq_true, if_false, and_false,
    if_neg (by simp [h2] : ¬((isS != (findOrCreateUser db md.from_).2.is_subscribed) = true
      ∧ f.updateSubFault = true))]
  repeat' split
  all_goals
    simp [userSubscribedFlag_saveMessage, hinc, hflag]

/-! ## Helper lemmas about the admission queue -/

theorem submitAll_characterization {α : Type} (pipe : MessageData → α) :
    ∀ (evs : List MessageData) (st : QueueState),
      (submitAll pipe st evs).1.delayedMessages =
          st.delayedMessages ++ evs.drop (RATE_LIMIT_THRESHOLD - st.requestCount)
        ∧ (submitAll pipe st evs).2 =
            (evs.take (RATE_LIMIT_THRESHOLD - st.requestCount)).map
                (fun md => QueueOutcome.inline (pipe md))
              ++ (evs.drop (RATE_LIMIT_THRESHOLD - st.requestCount)).map
                (fun _ => QueueOutcome.delayed)
        ∧ (submitAll pipe st evs).1.requestCount = st.requestCount + evs.length
        ∧ (submitAll pipe st evs).1.processingDelayed = st.processingDelayed := by
  intro evs
  induction evs with
  | nil => intro st; simp [submitAll]
  | cons md evs ih =>
    intro st
    by_cases h : st.requestCount + 1 > RATE_LIMIT_THRESHOLD
    · have hz : RATE_LIMIT_THRESHOLD - st.requestCount = 0 := by
        unfold RATE_LIMIT_THRESHOLD at h ⊢; omega
      have hz1 : RATE_LIMIT_THRESHOLD - (st.requestCount + 1) = 0 := by
        unfold RATE_LIMIT_THRESHOLD at h ⊢; omega
      obtain ⟨ih1, ih2, ih3, ih4⟩ :=
        ih ⟨st.requestCount + 1, st.delayedMessages ++ [md], st.processingDelayed,
          st.drainsStarted, st.drainsFinished⟩
      simp only [submitAll, handleMessage, if_pos h]
      refine ⟨?_, ?_, ?_, ?_⟩
      · rw [ih1, hz, hz1]; simp
      · rw [ih2, hz, hz1]; simp
      · rw [ih3]; simp only [List.length_cons]; omega
      · rw [ih4]
    · have hs : RATE_LIMIT_THRESHOLD - st.requestCount =
          (RATE_LIMIT_THRESHOLD - (st.requestCount + 1)) + 1 := by
        unfold RATE_LIMIT_THRESHOLD at h ⊢; omega
      obtain ⟨ih1, ih2, ih3, ih4⟩ :=
        ih ⟨st.requestCount + 1, st.delayedMessages, st.processingDelayed,
          st.drainsStarted, st.drainsFinished⟩
      simp only [submitAll, handleMessage, if_neg h]
      refine ⟨?_, ?_, ?_, ?_⟩
      · rw [ih1, hs]; simp
      · rw [ih2, hs]; simp
      · rw [ih3]; simp only [List.length_cons]; omega
      · rw [ih4]

theorem qstep_drain_balance {a b : QueueState} (hstep : QStep a b)
    (ih : a.drainsStarted = a.drainsFinished + (if a.processingDelayed then 1 else 0)) :
    b.drainsStarted = b.drainsFinished + (if b.processingDelayed then 1 else 0) := by
  cases hstep with
  | submit md =>
    simp only [handleMessage]
    split <;> simpa using ih
  | tick =>
    simp only [intervalTick]
    split
    next hcond =>
      obtain ⟨-, hpd⟩ := hcond
      simp [hpd] at ih
      simp [ih]
    next hcond => simpa using ih
  | drain ev hpd =>
    simp [hpd] at ih
    cases hbuf : a.delayedMessages with
    | nil => simp [drainStep, hbuf]; omega
    | cons e rest =>
      cases ev with
      | ok => simp [drainStep, hbuf, hpd, ih]
      | fail => simp [drainStep, hbuf]; omega

theorem qreachable_drain_invariant (st : QueueState) (h : QReachable st) :
    st.drainsStarted = st.drainsFinished + (if st.processingDelayed then 1 else 0) := by
  unfold QReachable at h
  induction h with
  | refl => rfl
  | tail hab hstep ih => exact qstep_drain_balance hstep ih

theorem qreachable_submitAll (evs : List MessageData) : ∀ st : QueueState,
    Relation.ReflTransGen QStep st (submitAll (fun _ => PUnit.unit) st evs).1 := by
  induction evs with
  | nil => intro st; exact Relation.ReflTransGen.refl
  | cons md evs ih =>
    intro st
    have h1 : QStep st (handleMessage (fun _ => PUnit.unit) st md).1 := QStep.submit st md
    have h2 := ih (handleMessage (fun _ => PUnit.unit) st md).1
    have heq : (submitAll (fun _ => PUnit.unit) st (md :: evs)).1 =
        (submitAll (fun _ => PUnit.unit)
          (handleMessage (fun _ => PUnit.unit) st md).1 evs).1 := by
      simp [submitAll]
    rw [heq]
    exact Relation.ReflTransGen.head h1 h2

/-- A window where 51 events arrived: the 51st overflowed into the buffer. -/
def demoBurstState : QueueState :=
  (submitAll (fun _ => PUnit.unit) initialQueueState (List.replicate 51 demoMsg)).1

/-- The state right after the next tick: a drain of the overflow is active. -/
def demoDrainingState : QueueState := (intervalTick demoBurstState).1

theorem qreachable_demoDrainingState : QReachable demoDrainingState :=
  Relation.ReflTransGen.tail (qreachable_submitAll _ initialQueueState)
    (QStep.tick demoBurstState)

theorem intervalTick_restarts (st : QueueState) (hpd : st.processingDelayed = false)
    (hne : st.delayedMessages ≠ []) :
    (intervalTick st).1.processingDelayed = true
      ∧ (intervalTick st).1.delayedMessages = st.delayedMessages
      ∧ (intervalTick st).1.drainsStarted = st.drainsStarted + 1 := by
  simp [intervalTick, hpd, List.length_pos.mpr hne]

theorem attemptNext_tail (st : QueueState) (ev : DrainEvent)
    (hne : st.delayedMessages ≠ []) :
    (attemptNext st ev).delayedMessages = st.delayedMessages.tail := by
  obtain ⟨e, rest, hbuf⟩ : ∃ e rest, st.delayedMessages = e :: rest := by
    cases hb : st.delayedMessages with
    | nil => exact absurd hb hne
    | cons e rest => exact ⟨e, rest, rfl⟩
  unfold attemptNext
  by_cases hpd : st.processingDelayed = true
  · rw [if_pos hpd]
    cases ev <;> simp [drainStep, hbuf]
  · have hpd' : st.processingDelayed = false := by
      revert hpd; cases st.processingDelayed <;> simp
    rw [if_neg (by simp [hpd'])]
    have hlen : 0 < st.delayedMessages.length := List.length_pos.mpr hne
    simp only [intervalTick]
    rw [if_pos (by simpa using ⟨hlen, hpd'⟩)]
    cases ev <;> simp [drainStep, hbuf]

theorem attemptAll_drains (evs : List DrainEvent) : ∀ st : QueueState,
    st.delayedMessages.length = evs.length →
    (attemptAll st evs).delayedMessages = [] := by
  induction evs with
  | nil =>
    intro st h
    simpa [attemptAll] using List.length_eq_zero.mp h
  | cons ev evs ih =>
    intro st h
    have hne : st.delayedMessages ≠ [] := by
      intro hc; rw [hc] at h; simp at h
    have ht := attemptNext_tail st ev hne
    simp only [attemptAll]
    apply ih
    rw [ht, List.length_tail, h]
    simp

theorem getConversationContext_eq (db : DBState) (uid : String) :
    getConversationContext db uid =
      ((userTurns db uid).reverse.take contextMessageLimit).reverse := by
  simp [getConversationContext, userTurns, List.map_reverse, List.map_take]

/-! ## The claims -/

/-- Claim C1 — the code evaluated at the failing input.  The claim states that
a non-subscribed user whose updated count exceeds the free-tier limit of 10
receives the upsell message, the Responder is not called, and the outcome is
`subscription_required`.  The inverted check `if (messageCount <= 10 ||
isSubscribed)` at messageController.js line 165 does the opposite: with stored
count 10 (updated count 11) and `isSubscribed = false` the pipeline calls
`generateAIResponse` once, delivers the AI reply, and returns success. -/
theorem C1_over_limit_unsubscribed_gets_ai_reply :
    (incrementMessageCount (dbWith 10 false) demoSender).2 = 11
    ∧ (processMessageDirectly noFaults false demoReply (dbWith 10 false) demoMsg).outcome
        = some (Outcome.success demoReply)
    ∧ (processMessageDirectly noFaults false demoReply (dbWith 10 false) demoMsg).aiCalls.length
        = 1
    ∧ (processMessageDirectly noFaults false demoReply (dbWith 10 false) demoMsg).sent
        = [(demoSender, demoReply)] :=
  ⟨rfl, rfl, rfl, rfl⟩

/-- Claim C2 — the code evaluated at the failing input.  The claim states that
a subscribed user always gets a Responder-generated reply.  With
`isSubscribed = true` (stored count 50, updated 51) the inverted check sends
the upsell text, returns `subscription_required`, and never calls
`generateAIResponse`. -/
theorem C2_subscribed_user_gets_upsell_not_responder :
    (processMessageDirectly noFaults true demoReply (dbWith 50 true) demoMsg).aiCalls = []
    ∧ (processMessageDirectly noFaults true demoReply (dbWith 50 true) demoMsg).outcome
        = some (Outcome.subscription_required subscriptionExpiredMessage)
    ∧ (processMessageDirectly noFaults true demoReply (dbWith 50 true) demoMsg).sent
        = [(demoSender, subscriptionExpiredMessage)]
    ∧ (incrementMessageCount (dbWith 50 true) demoSender).2 = 51 :=
  ⟨rfl, rfl, rfl, rfl⟩

/-- Claim C3: the stored `messageCount` is non-decreasing for every user
across any sequence of pipeline runs (with arbitrary fault injections), and
any run that reaches the count update increments the sender's stored count by
exactly one — the increment happens before the admission check, so it holds on
the `subscription_required` branch and on every later-failing branch alike. -/
theorem C3_message_count_monotone_and_incremented_once :
    (∀ (isS : Bool) (reply : String) (db : DBState)
        (rs : List (Faults × MessageData)) (v : String),
        userCount db v ≤ userCount (runAll isS reply db rs) v)
    ∧ (∀ (f : Faults) (isS : Bool) (reply : String) (db : DBState) (md : MessageData),
        reachesIncrement f isS db md →
          userCount (processMessageDirectly f isS reply db md).db md.from_ =
            userCount db md.from_ + 1) :=
  ⟨fun isS reply db rs v => runAll_userCount_mono isS reply rs db v,
   fun f isS reply db md h => pipeline_count_incremented f isS reply db md h⟩

/-- Witness for C3 at a concrete run. -/
theorem C3_message_count_witness :
    userCount (dbWith 3 false) demoSender ≤
        userCount (runAll false demoReply (dbWith 3 false) [(noFaults, demoMsg)]) demoSender
    ∧ userCount (processMessageDirectly noFaults false demoReply
          (dbWith 3 false) demoMsg).db demoSender =
        userCount (dbWith 3 false) demoSender + 1 :=
  ⟨C3_message_count_monotone_and_incremented_once.1 false demoReply (dbWith 3 false)
      [(noFaults, demoMsg)] demoSender,
   C3_message_count_monotone_and_incremented_once.2 noFaults false demoReply
      (dbWith 3 false) demoMsg (by decide)⟩

/-- Claim C4: `queueService.handleMessage` increments the window counter; if
it stays at or below `RATE_LIMIT_THRESHOLD` the event runs inline and the
pipeline's result is returned, otherwise the event is appended to the FIFO
buffer (never dropped) and `{ delayed: true }` is returned.  In a fresh window
with 75 events, the first 50 run inline and the remaining 25 are buffered in
arrival order. -/
theorem C4_admission_threshold_inline_else_buffered :
    (∀ {α : Type} (pipe : MessageData → α) (st : QueueState) (md : MessageData),
        (st.requestCount + 1 ≤ RATE_LIMIT_THRESHOLD →
          handleMessage pipe st md =
            ({ st with requestCount := st.requestCount + 1 },
              QueueOutcome.inline (pipe md)))
        ∧ (st.requestCount + 1 > RATE_LIMIT_THRESHOLD →
          handleMessage pipe st md =
            ({ st with
                requestCount := st.requestCount + 1
                delayedMessages := st.delayedMessages ++ [md] },
              QueueOutcome.delayed)))
    ∧ (∀ {α : Type} (pipe : MessageData → α) (st : QueueState) (evs : List MessageData),
        st.requestCount = 0 → evs.length = 75 →
          (submitAll pipe st evs).1.delayedMessages = st.delayedMessages ++ evs.drop 50
          ∧ (evs.drop 50).length = 25
          ∧ (submitAll pipe st evs).2 =
              (evs.take 50).map (fun md => QueueOutcome.inline (pipe md))
                ++ (evs.drop 50).map (fun _ => QueueOutcome.delayed)) := by
  constructor
  · intro α pipe st md
    constructor
    · intro h
      simp [handleMessage, Nat.not_lt.mpr h]
    · intro h
      simp [handleMessage, h]
  · intro α pipe st evs h0 h75
    obtain ⟨c1, c2, -, -⟩ := submitAll_characterization pipe evs st
    rw [h0] at c1 c2
    have hth : RATE_LIMIT_THRESHOLD - 0 = 50 := rfl
    rw [hth] at c1 c2
    exact ⟨c1, by rw [List.length_drop, h75], c2⟩

/-- Witness for C4 at a concrete burst. -/
theorem C4_admission_witness :
    (handleMessage (fun _ => true) initialQueueState demoMsg =
        ({ initialQueueState with requestCount := 1 }, QueueOutcome.inline true))
    ∧ ((submitAll (fun _ => true) initialQueueState (List.replicate 75 demoMsg)).1.delayedMessages
        = initialQueueState.delayedMessages ++ (List.replicate 75 demoMsg).drop 50)
    ∧ ((List.replicate 75 demoMsg).drop 50).length = 25 :=
  ⟨(C4_admission_threshold_inline_else_buffered.1 (fun _ => true) initialQueueState
      demoMsg).1 (by decide),
   (C4_admission_threshold_inline_else_buffered.2 (fun _ => true) initialQueueState
      (List.replicate 75 demoMsg) rfl (by simp)).1,
   (C4_admission_threshold_inline_else_buffered.2 (fun _ => true) initialQueueState
      (List.replicate 75 demoMsg) rfl (by simp)).2.1⟩

/-- Claim C5: in every reachable queue state at most one drain is active (the
ghost counters record drain starts/completions, and their difference never
exceeds one), and an interval tick that fires while a drain is in progress
only resets the window counter: it does not start a second drain and leaves
the buffer untouched. -/
theorem C5_at_most_one_drain_active (st : QueueState) (h : QReachable st) :
    st.drainsStarted - st.drainsFinished ≤ 1
    ∧ (st.processingDelayed = true →
        intervalTick st = ({ st with requestCount := 0 }, false)) := by
  have hb := qreachable_drain_invariant st h
  constructor
  · by_cases hpd : st.processingDelayed = true <;> simp [hpd] at hb <;> omega
  · intro hpd
    simp [intervalTick, hpd]

/-- Witness for C5 at a reachable state with an active drain. -/
theorem C5_at_most_one_drain_witness :
    demoDrainingState.drainsStarted - demoDrainingState.drainsFinished ≤ 1
    ∧ (demoDrainingState.processingDelayed = true →
        intervalTick demoDrainingState =
          ({ demoDrainingState with requestCount := 0 }, false)) :=
  C5_at_most_one_drain_active demoDrainingState qreachable_demoDrainingState

/-- Claim C6: when processing the head of the buffer throws, only that entry
is abandoned: the remaining entries stay buffered in order, the drain ends
(flag cleared), the next tick starts a fresh drain over exactly those
entries, and after as many attempts as there are remaining entries the buffer
is empty — every later entry gets attempted in a later drain. -/
theorem C6_failure_abandons_only_failing_entry (st : QueueState) (e : MessageData)
    (rest : List MessageData) (evs : List DrainEvent)
    (_hpd : st.processingDelayed = true) (hbuf : st.delayedMessages = e :: rest) :
    (drainStep st DrainEvent.fail).delayedMessages = rest
    ∧ (drainStep st DrainEvent.fail).processingDelayed = false
    ∧ (rest ≠ [] →
        (intervalTick (drainStep st DrainEvent.fail)).1.processingDelayed = true
        ∧ (intervalTick (drainStep st DrainEvent.fail)).1.delayedMessages = rest)
    ∧ (evs.length = rest.length →
        (attemptAll (drainStep st DrainEvent.fail) evs).delayedMessages = []) := by
  have h1 : (drainStep st DrainEvent.fail).delayedMessages = rest := by
    simp [drainStep, hbuf]
  have h2 : (drainStep st DrainEvent.fail).processingDelayed = false := by
    simp [drainStep, hbuf]
  refine ⟨h1, h2, ?_, ?_⟩
  · intro hne
    have hr := intervalTick_restarts (drainStep st DrainEvent.fail) h2
      (by rw [h1]; exact hne)
    exact ⟨hr.1, by rw [hr.2.1, h1]⟩
  · intro hlen
    exact attemptAll_drains evs _ (by rw [h1]; omega)

/-- Witness for C6 at a concrete two-entry buffer. -/
theorem C6_failure_abandons_witness :
    (drainStep ⟨0, [demoMsg, demoMsg], true, 1, 0⟩ DrainEvent.fail).delayedMessages = [demoMsg]
    ∧ (drainStep ⟨0, [demoMsg, demoMsg], true, 1, 0⟩ DrainEvent.fail).processingDelayed = false
    ∧ (([demoMsg] : List MessageData) ≠ [] →
        (intervalTick (drainStep ⟨0, [demoMsg, demoMsg], true, 1, 0⟩
            DrainEvent.fail)).1.processingDelayed = true
        ∧ (intervalTick (drainStep ⟨0, [demoMsg, demoMsg], true, 1, 0⟩
            DrainEvent.fail)).1.delayedMessages = [demoMsg])
    ∧ (([DrainEvent.ok] : List DrainEvent).length = ([demoMsg] : List MessageData).length →
        (attemptAll (drainStep ⟨0, [demoMsg, demoMsg], true, 1, 0⟩ DrainEvent.fail)
          [DrainEvent.ok]).delayedMessages = []) :=
  C6_failure_abandons_only_failing_entry ⟨0, [demoMsg, demoMsg], true, 1, 0⟩
    demoMsg [demoMsg] [DrainEvent.ok] rfl rfl

/-- Claim C7 — the code evaluated at the failing input.  When
`generateAIResponse` throws, no `messages` rows are appended and the run
rethrows (matching the claim), but the claim's "sender receives the generic
error message" fails: the controller's catch block reads the identifier
`from`, which is `const`-scoped to the try block and so out of scope there,
raising a ReferenceError before `botConfig.errors.general` can be sent. -/
theorem C7_responder_failure_no_rows_and_no_error_message :
    (processMessageDirectly { noFaults with aiFault := true } false demoReply
        (dbWith 20 false) demoMsg).db.messages = []
    ∧ (processMessageDirectly { noFaults with aiFault := true } false demoReply
        (dbWith 20 false) demoMsg).sent = []
    ∧ (processMessageDirectly { noFaults with aiFault := true } false demoReply
        (dbWith 20 false) demoMsg).outcome = none
    ∧ handleMessageCatch true = none :=
  ⟨rfl, rfl, rfl, by decide⟩

/-- Counterexample for claim C8 as stated: with the stored flag `true` and the
oracle answering `false`, a failing `updateSubscription` aborts the whole run
— the count is NOT incremented (stays 5), nothing is sent, the Responder is
not called, and the run rethrows — refuting "the count increment, limit
decision, and reply still happen". -/
theorem C8_reconciliation_failure_aborts_cex :
    (processMessageDirectly { noFaults with updateSubFault := true } false demoReply
        (dbWith 5 true) demoMsg).outcome = none
    ∧ userCount (processMessageDirectly { noFaults with updateSubFault := true } false
        demoReply (dbWith 5 true) demoMsg).db demoSender = 5
    ∧ ¬(userCount (processMessageDirectly { noFaults with updateSubFault := true } false
        demoReply (dbWith 5 true) demoMsg).db demoSender = 5 + 1)
    ∧ (processMessageDirectly { noFaults with updateSubFault := true } false demoReply
        (dbWith 5 true) demoMsg).sent = []
    ∧ (processMessageDirectly { noFaults with updateSubFault := true } false demoReply
        (dbWith 5 true) demoMsg).aiCalls = [] := by
  refine ⟨rfl, by decide, by decide, rfl, rfl⟩

/-- Claim C8 (amended): when the fetched entitlement differs from the stored
flag, the pipeline persists the corrected flag when `updateSubscription`
succeeds (and the corrected value survives to the end of the run); but when
that persistence fails, the error propagates and aborts the rest of the run —
the count is not incremented, no limit decision is taken, and nothing is sent
or generated. -/
theorem C8_reconciliation_persisted_or_abort (f : Faults) (isS : Bool) (reply : String)
    (db : DBState) (md : MessageData)
    (h1 : f.findUserFault = false)
    (hdiff : (isS != (findOrCreateUser db md.from_).2.is_subscribed) = true) :
    (f.updateSubFault = false →
        userSubscribedFlag (processMessageDirectly f isS reply db md).db md.from_ = some isS)
    ∧ (f.updateSubFault = true →
        processMessageDirectly f isS reply db md =
          { db := (findOrCreateUser db md.from_).1, sent := [], aiCalls := [],
            outcome := none }
        ∧ userCount (processMessageDirectly f isS reply db md).db md.from_ =
            userCount db md.from_) := by
  constructor
  · intro h2
    exact pipeline_reconcile_persists f isS reply db md h1 hdiff h2
  · intro h2
    have habort := pipeline_reconcile_fault_aborts f isS reply db md h1 hdiff h2
    refine ⟨habort, ?_⟩
    rw [habort]
    simpa using userCount_findOrCreateUser db md.from_ md.from_

/-- Witness for the amended C8 at a concrete differing flag. -/
theorem C8_reconciliation_witness :
    (({ noFaults with updateSubFault := true } : Faults).updateSubFault = false →
        userSubscribedFlag (processMessageDirectly { noFaults with updateSubFault := true }
          false demoReply (dbWith 5 true) demoMsg).db demoSender = some false)
    ∧ (({ noFaults with updateSubFault := true } : Faults).updateSubFault = true →
        processMessageDirectly { noFaults with updateSubFault := true } false demoReply
            (dbWith 5 true) demoMsg =
          { db := (findOrCreateUser (dbWith 5 true) demoSender).1, sent := [], aiCalls := [],
            outcome := none }
        ∧ userCount (processMessageDirectly { noFaults with updateSubFault := true } false
            demoReply (dbWith 5 true) demoMsg).db demoSender =
            userCount (dbWith 5 true) demoSender) :=
  C8_reconciliation_persisted_or_abort { noFaults with updateSubFault := true } false
    demoReply (dbWith 5 true) demoMsg rfl (by decide)

/-- Claim C9: `getConversationContext` returns at most `contextMessageLimit`
(10) turns, and they are a suffix of the sender's chronological conversation —
the most recent `min 10 n` turns, presented oldest-first. -/
theorem C9_context_is_recent_suffix_oldest_first (db : DBState) (uid : String) :
    (getConversationContext db uid).length ≤ contextMessageLimit
    ∧ getConversationContext db uid <:+ userTurns db uid
    ∧ (getConversationContext db uid).length =
        min contextMessageLimit (userTurns db uid).length := by
  have heq := getConversationContext_eq db uid
  have hlen : (getConversationContext db uid).length =
      min contextMessageLimit (userTurns db uid).length := by
    rw [heq]
    simp [List.length_take]
  refine ⟨?_, ?_, hlen⟩
  · rw [hlen]; exact Nat.min_le_left _ _
  · rw [heq]
    have hp : (userTurns db uid).reverse.take contextMessageLimit <+:
        (userTurns db uid).reverse := List.take_prefix _ _
    have hs := List.reverse_suffix.mpr hp
    rwa [List.reverse_reverse] at hs

/-- Claim C10: however a drain ends — buffer exhausted or an entry's
processing threw — `processingDelayed` is `false` afterwards (the `finally`
clause), so a later tick with a non-empty buffer always starts a new drain. -/
theorem C10_drain_always_clears_flag (st st' : QueueState) (ev : DrainEvent) :
    ((st.delayedMessages = [] → (drainStep st ev).processingDelayed = false)
    ∧ (drainStep st DrainEvent.fail).processingDelayed = false)
    ∧ (st'.processingDelayed = false → st'.delayedMessages ≠ [] →
        (intervalTick st').1.processingDelayed = true
        ∧ (intervalTick st').1.drainsStarted = st'.drainsStarted + 1) := by
  refine ⟨⟨?_, ?_⟩, ?_⟩
  · intro hb; simp [drainStep, hb]
  · cases hbuf : st.delayedMessages <;> simp [drainStep, hbuf]
  · intro hp hb
    have hr := intervalTick_restarts st' hp hb
    exact ⟨hr.1, hr.2.2⟩

/-- Witness for C10 at concrete states. -/
theorem C10_drain_clears_flag_witness :
    (((⟨0, [], true, 1, 0⟩ : QueueState).delayedMessages = [] →
        (drainStep ⟨0, [], true, 1, 0⟩ DrainEvent.ok).processingDelayed = false)
    ∧ (drainStep ⟨0, [], true, 1, 0⟩ DrainEvent.fail).processingDelayed = false)
    ∧ ((⟨7, [demoMsg], false, 1, 1⟩ : QueueState).processingDelayed = false →
        (⟨7, [demoMsg], false, 1, 1⟩ : QueueState).delayedMessages ≠ [] →
        (intervalTick ⟨7, [demoMsg], false, 1, 1⟩).1.processingDelayed = true
        ∧ (intervalTick ⟨7, [demoMsg], false, 1, 1⟩).1.drainsStarted =
            (⟨7, [demoMsg], false, 1, 1⟩ : QueueState).drainsStarted + 1) :=
  C10_drain_always_clears_flag ⟨0, [], true, 1, 0⟩ ⟨7, [demoMsg], false, 1, 1⟩ DrainEvent.ok

end WhatsAppFunnel
